import Mathlib

/-!
Verification development for the pumpfuse sheet-cleaning engine
(`clean.py`): a shallow embedding of the gap-detection and
interpolation algorithm, together with theorems settling the spec's
claims about it.

Modelling conventions:
* Timestamps are rationals (hours since an arbitrary epoch); deltas are
  rationals (hours).  The Python floats are modelled exactly by `ℚ`.
* A cell that fails to parse (`get_float` returning `None`, or a
  timestamp string not matching the parse pattern) is modelled as
  `none`.
* The remote store (Google Sheet) is a list of rows.  Formula cells
  (`=IF(ISDATE(B_k),ROUND((B_k-B_{k-1})*24,2),)`) evaluate, in the
  store model, to the rounded difference of the two adjacent timestamp
  values; `=DATE(..)+TIME(..)` cells evaluate to their datetime value.
* Exceptions escaping to the `except` clause of `clean_sheet`
  (`ZeroDivisionError` from `curr_delta / avg_delta`, or
  `parse_timestamp` failing) are modelled by an explicit error state.
-/

attribute [local semireducible] Rat.add Rat.mul Rat.inv Rat.sub

/-- Sentinel marker written into column G of synthesized rows
(`CLEANED_MARK = 'cleaned'` in `clean.py`). -/
def CLEANED_MARK : String := "cleaned"

/-- Size of the baseline lookback window (`DELTA_AVG_WINDOW = 5`). -/
def DELTA_AVG_WINDOW : Nat := 5

/-- Relative tolerance for the gap test (`DELTA_TOLERANCE = 0.2`). -/
def DELTA_TOLERANCE : ℚ := 1/5

/-- Python 3 builtin `round` to an integer: round half to even
(banker's rounding), the semantics of `round(curr_delta / avg_delta)`
at `clean.py` lines 108 and 170. -/
def pyRound (q : ℚ) : ℤ :=
  let f := ⌊q⌋
  let frac := q - f
  if frac < 1/2 then f
  else if 1/2 < frac then f + 1
  else if f % 2 = 0 then f else f + 1

/-- Round half away from zero.  This is the store model's `ROUND`
(Google Sheets rounds halves away from zero), and also the rounding
policy the spec's §9 mandates for `n = round(observedDelta/baseline)`;
it is kept as a separate definition so the two policies can be
compared. -/
def roundHalfAwayFromZero (q : ℚ) : ℤ :=
  if 0 ≤ q then ⌊q + 1/2⌋ else -⌊-q + 1/2⌋

/-- Store model: `ROUND(x, 2)` as used by the delta formulas written at
`clean.py` lines 118 and 131. -/
def round2 (q : ℚ) : ℚ := (roundHalfAwayFromZero (q * 100) : ℚ) / 100

/-- A timestamp cell of the sheet: either original text (carrying its
parse/date value, `none` when the text matches no parse pattern and is
not date-valued), or a `=DATE(..)+TIME(..)` expression written by
`format_timestamp` (`clean.py` line 74), carrying the datetime value it
evaluates to. -/
inductive TsCell
  | text (t : Option ℚ)
  | dateFormula (t : ℚ)
deriving DecidableEq

/-- The value the store computes for a timestamp cell (used by delta
formulas), and equally the value `parse_timestamp` recovers from the
rendered cell text. -/
def TsCell.value : TsCell → Option ℚ
  | .text t => t
  | .dateFormula t => some t

/-- A delta cell: either a stored value as rendered by the store
(`none` when `get_float` cannot convert it), or the delta formula
`=IF(ISDATE(B_k),ROUND((B_k-B_{k-1})*24,2),)` referencing the row's own
timestamp and its immediate predecessor's. -/
inductive DeltaCell
  | val (v : Option ℚ)
  | formula
deriving DecidableEq

/-- Evaluate a delta cell given the predecessor row's and the own row's
timestamp values.  The formula yields the rounded elapsed hours when
both are date-valued and an empty/non-numeric value otherwise. -/
def DeltaCell.eval (prevTs currTs : Option ℚ) : DeltaCell → Option ℚ
  | .val v => v
  | .formula =>
    match currTs, prevTs with
    | some a, some b => some (round2 (a - b))
    | _, _ => none

/-- One row of the sheet.  Only the columns the engine reads or writes
are modelled: column B (timestamp), column C (delta) and column G
(marker); the payload columns A, D, E, F are blank in every row the
engine writes and are never read by it. -/
structure SheetRow where
  ts : TsCell
  delta : DeltaCell
  marker : String
deriving DecidableEq

/-- Evaluate the rows of a sheet into the `(timestamp, delta)` value
pairs `get_all_values` hands to the engine, threading each row's
timestamp value to its successor's delta formula. -/
def evalFrom (prevTs : Option ℚ) : List SheetRow → List (Option ℚ × Option ℚ)
  | [] => []
  | r :: rest => (r.ts.value, r.delta.eval prevTs r.ts.value) :: evalFrom r.ts.value rest

/-- `sheet.get_all_values()`: the snapshot of evaluated cell values the
engine scans, restricted to the two columns it reads. -/
def evalSheet (s : List SheetRow) : List (Option ℚ × Option ℚ) :=
  evalFrom none s

/-- `sheet.insert_row(values, index)` of the store: inserts one row so
that it ends up at the 1-based position `idx`, shifting the rows at and
after that position down by one. -/
def insertRow (s : List SheetRow) (r : SheetRow) (idx : Nat) : List SheetRow :=
  s.take (idx - 1) ++ r :: s.drop (idx - 1)

/-- Rewrite the delta cell of the row at 0-based position `i` to the
delta formula (the write performed by `sheet.update_cell(pos, 3, ...)`
at `clean.py` line 133). -/
def setDeltaFormula : List SheetRow → Nat → List SheetRow
  | [], _ => []
  | r :: rest, 0 => { r with delta := .formula } :: rest
  | r :: rest, i + 1 => r :: setDeltaFormula rest i

/-- `sheet.update_cell(pos, 3, formula)`: `pos` is 1-based. -/
def updateCell (s : List SheetRow) (pos : Nat) : List SheetRow :=
  setDeltaFormula s (pos - 1)

/-- The baseline window collection (`clean.py` lines 94-99 and
156-161): for `i in range(row - DELTA_AVG_WINDOW, row)`, keep
`get_float(data[i][2])` when `i > 1` and the value is numeric. -/
def prevDeltas (data : List (Option ℚ × Option ℚ)) (row : Nat) : List ℚ :=
  (List.range DELTA_AVG_WINDOW).filterMap fun j =>
    let i : ℤ := (row : ℤ) - (DELTA_AVG_WINDOW : ℤ) + j
    if 1 < i then (data.getD i.toNat (none, none)).2 else none

/-- The gap test (`clean.py` lines 108-109 and 170-171):
`n = round(curr/avg)`; a gap of `n` is detected iff `n > 1` and
`|curr - n*avg| < DELTA_TOLERANCE * avg * n`. -/
def gapDecision (avg curr : ℚ) : Option ℤ :=
  let n := pyRound (curr / avg)
  if 1 < n ∧ |curr - n * avg| < DELTA_TOLERANCE * avg * n then some n else none

/-- The outcome of evaluating one scan cursor position against the
snapshot.  This is the block of code duplicated verbatim between
`clean_sheet` (lines 93-109) and `estimate_rows_to_insert`
(lines 155-171). `divByZero` models the `ZeroDivisionError` Python
raises at `curr_delta / avg_delta` when the baseline average is 0. -/
inductive Decision
  | offEnd
  | skip
  | divByZero
  | found (avg : ℚ) (n : Nat)
deriving DecidableEq

/-- Evaluate one cursor position: window check, baseline average,
current delta parse, then the gap test. -/
def scanDecision (data : List (Option ℚ × Option ℚ)) (row : Nat) : Decision :=
  if row < data.length then
    let pd := prevDeltas data row
    if pd.length < DELTA_AVG_WINDOW then .skip
    else
      let avg := pd.sum / (DELTA_AVG_WINDOW : ℚ)
      match (data.getD row (none, none)).2 with
      | none => .skip
      | some curr =>
        if avg = 0 then .divByZero
        else
          match gapDecision avg curr with
          | some n => .found avg n.toNat
          | none => .skip
  else .offEnd

/-- The payload of the `k`-th synthesized row (`clean.py` lines
112-120): timestamp `prev_ts + k * avg_delta` hours as a date
expression, the delta formula, and the cleaned marker in column G. -/
def synthRow (prevTs avg : ℚ) (k : Nat) : SheetRow :=
  { ts := .dateFormula (prevTs + avg * k), delta := .formula, marker := CLEANED_MARK }

/-- The insertion loop (`clean.py` lines 111-130): for
`n in range(1, n_missing)`, insert the synthesized row at 1-based
position `row + n` (with `row` the 0-based cursor into the snapshot,
so each insert lands immediately above the original anomalous row). -/
def insertLoop (sheet : List SheetRow) (row : Nat) (avg prevTs : ℚ) (nMissing : Nat) :
    List SheetRow :=
  (List.range' 1 (nMissing - 1)).foldl
    (fun s k => insertRow s (synthRow prevTs avg k) (row + k)) sheet

/-- All writes for one detected gap: the `n-1` insertions followed by
the delta-formula rewrite of the original row, now at 1-based position
`row + n_missing` (`clean.py` lines 111-133). -/
def applyGapWrites (sheet : List SheetRow) (row : Nat) (avg prevTs : ℚ) (n : Nat) :
    List SheetRow :=
  updateCell (insertLoop sheet row avg prevTs n) (row + n)

/-- Outcome of one iteration of the `clean_sheet` scan loop. -/
inductive StepOut
  | halt
  | skip
  | err
  | gap (n : Nat) (newSheet : List SheetRow)
deriving DecidableEq

/-- One iteration of the `clean_sheet` while loop (`clean.py` lines
93-143): evaluate the cursor; on a detected gap, parse the predecessor
timestamp (`err` when `parse_timestamp` raises) and perform the
writes. -/
def cleanStep (sheet : List SheetRow) (row : Nat) : StepOut :=
  match scanDecision (evalSheet sheet) row with
  | .offEnd => .halt
  | .skip => .skip
  | .divByZero => .err
  | .found avg n =>
    match ((evalSheet sheet).getD (row - 1) (none, none)).1 with
    | none => .err
    | some prevTs => .gap n (applyGapWrites sheet row avg prevTs n)

/-- The mutable state of one `clean_sheet` run: the remote sheet, the
scan cursor, the `rows_added` and `write_ops` counters, the mock clock
accumulating the `time.sleep(1.2)` delays, and whether an exception has
escaped the scan loop. -/
structure RunState where
  sheet : List SheetRow
  row : Nat
  rowsAdded : Nat
  writeOps : Nat
  elapsed : ℚ
  errored : Bool
deriving DecidableEq

/-- The `clean_sheet` scan loop.  A gap of `n` performs `n - 1`
insertions and one delta rewrite (`n` write operations, each followed
by `time.sleep(1.2)`), re-fetches the snapshot (implicit here: the
snapshot is always `evalSheet` of the current sheet) and advances the
cursor by `n`; otherwise the cursor advances by 1.  `fuel` bounds the
number of iterations. -/
def runLoop : Nat → RunState → RunState
  | 0, st => st
  | fuel + 1, st =>
    if st.errored then st
    else
      match cleanStep st.sheet st.row with
      | .halt => st
      | .skip => runLoop fuel { st with row := st.row + 1 }
      | .err => { st with errored := true }
      | .gap n newSheet =>
        runLoop fuel
          { st with
            sheet := newSheet
            row := st.row + n
            rowsAdded := st.rowsAdded + (n - 1)
            writeOps := st.writeOps + n
            elapsed := st.elapsed + 6/5 * n }

/-- The initial state of a `clean_sheet` run started at `startRow`. -/
def initState (sheet : List SheetRow) (startRow : Nat) : RunState :=
  { sheet := sheet, row := startRow, rowsAdded := 0, writeOps := 0, elapsed := 0,
    errored := false }

/-- `clean_sheet(sheet, start_row)`'s return value: `rows_added` on
normal completion, and 0 when an exception escapes the scan loop and is
caught by the function's `except` clause (`clean.py` lines 145-148). -/
def cleanSheet (fuel : Nat) (sheet : List SheetRow) (startRow : Nat) : Nat :=
  let st := runLoop fuel (initState sheet startRow)
  if st.errored then 0 else st.rowsAdded

/-- The cursor positions the scan loop actually evaluates, in order;
the scan stops at the position where an exception is raised. -/
def runVisited : Nat → List SheetRow → Nat → List Nat
  | 0, _, _ => []
  | fuel + 1, sheet, row =>
    match cleanStep sheet row with
    | .halt => []
    | .skip => row :: runVisited fuel sheet (row + 1)
    | .err => [row]
    | .gap n newSheet => row :: runVisited fuel newSheet (row + n)

/-- Every cursor in the list is at least `m`. -/
def minCursorBound (l : List Nat) (m : Nat) : Prop := ∀ q ∈ l, m ≤ q

/-- State of the dry-run estimator (`estimate_rows_to_insert`): cursor,
`rows_to_insert`, `update_ops`, and whether the `ZeroDivisionError`
escaped (the estimator has no handler, so it would propagate to
`main`). -/
structure EstState where
  row : Nat
  rowsToInsert : Nat
  updateOps : Nat
  errored : Bool
deriving DecidableEq

/-- The `estimate_rows_to_insert` loop (`clean.py` lines 155-176): the
identical per-cursor evaluation over a fixed snapshot, accumulating
`n - 1` rows to insert and one delta update per detected gap and
advancing the cursor by `n`; no writes, no snapshot refresh. -/
def estimateLoop (data : List (Option ℚ × Option ℚ)) : Nat → EstState → EstState
  | 0, st => st
  | fuel + 1, st =>
    if st.errored then st
    else
      match scanDecision data st.row with
      | .offEnd => st
      | .skip => estimateLoop data fuel { st with row := st.row + 1 }
      | .divByZero => { st with errored := true }
      | .found _ n =>
        estimateLoop data fuel
          { st with
            row := st.row + n
            rowsToInsert := st.rowsToInsert + (n - 1)
            updateOps := st.updateOps + 1 }

/-- `estimate_rows_to_insert(data, start_row)`. -/
def estimateRowsToInsert (fuel : Nat) (data : List (Option ℚ × Option ℚ))
    (startRow : Nat) : EstState :=
  estimateLoop data fuel { row := startRow, rowsToInsert := 0, updateOps := 0,
                           errored := false }

/-- Observable outcome of the tail of `main` (`clean.py` lines
214-220): process exit status, the lines printed from the confirmation
gate onward, and whether `clean_sheet` was invoked (i.e. whether any
mutation could occur). -/
structure MainOutcome where
  exitCode : Nat
  printed : List String
  ranClean : Bool
deriving DecidableEq

/-- Python `str.strip()` whitespace test (ASCII whitespace). -/
def isPySpace (c : Char) : Bool :=
  c = ' ' || c = '\t' || c = '\n' || c = '\x0d' || c = '\x0b' || c = '\x0c'

/-- Python `str.strip()`: remove leading and trailing whitespace. -/
def pyStrip (l : List Char) : List Char :=
  ((l.dropWhile isPySpace).reverse.dropWhile isPySpace).reverse

/-- Python `str.lower()` (ASCII inputs). -/
def pyLower (l : List Char) : List Char :=
  l.map Char.toLower

/-- The confirmation gate and completion report of `main` (`clean.py`
lines 214-220): if the estimated seconds exceed 300 and the stripped,
lowercased reply is not `y`, print `Aborted by user.` and exit 0
without running `clean_sheet`; otherwise run it and print the summary
line. -/
def mainAfterEstimate (estimatedSeconds : ℚ) (userInput : String) (rowsAdded : Nat) :
    MainOutcome :=
  if 300 < estimatedSeconds ∧ pyLower (pyStrip userInput.data) ≠ "y".data then
    { exitCode := 0, printed := ["Aborted by user."], ranClean := false }
  else
    { exitCode := 0,
      printed := ["Cleaning complete. Rows added: " ++ toString rowsAdded],
      ranClean := true }

/-! ### Concrete sheets used as witnesses and counterexamples -/

/-- An ordinary logged row: text timestamp `t` (hours) and a stored
numeric delta `d`. -/
def tRow (t : ℚ) (d : Option ℚ) : SheetRow :=
  { ts := .text (some t), delta := .val d, marker := "" }

/-- A header-like row with no parseable timestamp and no numeric
delta. -/
def junkRow : SheetRow :=
  { ts := .text none, delta := .val none, marker := "" }

/-- Snapshot with two gaps close together: a gap of 2 at cursor 7 and,
in the static numbering, a second apparent gap at cursor 9 whose
baseline window still contains the anomalous delta 2.  After the real
run repairs the first gap and re-fetches, the refreshed window contains
the synthesized deltas instead and the second gap is no longer
detected. -/
def CE : List SheetRow :=
  [junkRow, junkRow,
   tRow 6 (some 1), tRow 7 (some 1), tRow 8 (some 1), tRow 9 (some 1), tRow 10 (some 1),
   tRow 12 (some 2), tRow 13 (some 1), tRow (77/5) (some (12/5))]

/-- The sheet produced by repairing the gap of 2 at cursor 7 of `CE`. -/
def NSCE : List SheetRow := applyGapWrites CE 7 1 10 2

/-- Snapshot with a detected gap at cursor 7 whose predecessor row has
an unparseable timestamp. -/
def S8 : List SheetRow :=
  [junkRow, junkRow,
   tRow 6 (some 1), tRow 7 (some 1), tRow 8 (some 1), tRow 9 (some 1),
   { ts := .text none, delta := .val (some 1), marker := "" },
   tRow 12 (some 2), tRow 13 (some 1), tRow 14 (some 1)]

/-- Snapshot where the run first repairs a gap of 2 at cursor 7
(one successful insertion) and later detects a gap whose predecessor
timestamp is unparseable, raising mid-run. -/
def S10 : List SheetRow :=
  [junkRow, junkRow,
   tRow 6 (some 1), tRow 7 (some 1), tRow 8 (some 1), tRow 9 (some 1), tRow 10 (some 1),
   tRow 12 (some 2), tRow 13 (some 1),
   { ts := .text none, delta := .val (some 1), marker := "" },
   tRow 16 (some 2), tRow 17 (some 1)]

/-- Snapshot realizing the spec's gap-rejection example: baseline 1.0h,
observed delta 1.3h at cursor 7. -/
def W2 : List SheetRow :=
  [junkRow, junkRow,
   tRow 6 (some 1), tRow 7 (some 1), tRow 8 (some 1), tRow 9 (some 1), tRow 10 (some 1),
   tRow (113/10) (some (13/10))]

/-- Snapshot with observed delta exactly 2.5 times the baseline of 1.0h
at cursor 7: the rounding policy decides between `n = 2` (no gap) and
`n = 3` (gap). -/
def D3 : List SheetRow :=
  [junkRow, junkRow,
   tRow 6 (some 1), tRow 7 (some 1), tRow 8 (some 1), tRow 9 (some 1), tRow 10 (some 1),
   tRow (25/2) (some (5/2))]

/-- Snapshot with only four valid deltas in the lookback window of
cursor 7 (one window row is non-numeric). -/
def W4 : List SheetRow :=
  [junkRow, junkRow,
   tRow 6 (some 1), junkRow, tRow 8 (some 1), tRow 9 (some 1), tRow 10 (some 1),
   tRow 12 (some 2)]

/-- A gapless snapshot: every delta equals the baseline. -/
def NG : List SheetRow :=
  [junkRow, junkRow,
   tRow 6 (some 1), tRow 7 (some 1), tRow 8 (some 1), tRow 9 (some 1), tRow 10 (some 1),
   tRow 11 (some 1), tRow 12 (some 1)]

/-! ### Helper lemmas -/

/-- The scan loop never revisits a cursor position: every evaluated
position is at least the starting one. -/
lemma runVisited_ge (fuel : Nat) : ∀ (sheet : List SheetRow) (row : Nat),
    minCursorBound (runVisited fuel sheet row) row := by
  induction fuel with
  | zero =>
    intro sheet row q hq
    simp [runVisited] at hq
  | succ fuel ih =>
    intro sheet row q hq
    unfold runVisited at hq
    cases h : cleanStep sheet row with
    | halt => rw [h] at hq; simp at hq
    | skip =>
      rw [h] at hq
      rcases List.mem_cons.mp hq with rfl | hq
      · exact le_refl q
      · exact le_trans (Nat.le_succ row) (ih sheet (row + 1) q hq)
    | err =>
      rw [h] at hq
      simp at hq
      omega
    | gap n ns =>
      rw [h] at hq
      rcases List.mem_cons.mp hq with rfl | hq
      · exact le_refl q
      · exact le_trans (Nat.le_add_right row n) (ih ns (row + n) q hq)

/-- The estimator's `update_ops` counter never decreases. -/
lemma estimateLoop_updateOps_mono (data : List (Option ℚ × Option ℚ)) :
    ∀ (fuel : Nat) (st : EstState), st.updateOps ≤ (estimateLoop data fuel st).updateOps := by
  intro fuel
  induction fuel with
  | zero => intro st; exact le_refl _
  | succ fuel ih =>
    intro st
    unfold estimateLoop
    by_cases he : st.errored
    · rw [if_pos he]
    · rw [if_neg he]
      cases scanDecision data st.row with
      | offEnd => exact le_refl _
      | skip =>
        show st.updateOps ≤ (estimateLoop data fuel { st with row := st.row + 1 }).updateOps
        exact ih { st with row := st.row + 1 }
      | divByZero => exact le_refl _
      | found avg n =>
        show st.updateOps ≤ (estimateLoop data fuel { st with row := st.row + n, rowsToInsert := st.rowsToInsert + (n - 1), updateOps := st.updateOps + 1 }).updateOps
        exact le_trans (Nat.le_succ _) (ih { st with row := st.row + n, rowsToInsert := st.rowsToInsert + (n - 1), updateOps := st.updateOps + 1 })

/-- The lookback window never yields more than `DELTA_AVG_WINDOW`
values. -/
lemma prevDeltas_length_le (data : List (Option ℚ × Option ℚ)) (row : Nat) :
    (prevDeltas data row).length ≤ DELTA_AVG_WINDOW := by
  calc (prevDeltas data row).length ≤ (List.range DELTA_AVG_WINDOW).length :=
        List.length_filterMap_le _ _
    _ = DELTA_AVG_WINDOW := List.length_range _

/-- Closed form of the insertion loop: inserting the synthesized rows
one by one, each at 1-based position `row + k`, places them as a block
between the first `row` rows and the rest of the sheet. -/
lemma insertLoop_closed (sheet : List SheetRow) (row : Nat) (avg pts : ℚ) (m : Nat)
    (h : row ≤ sheet.length) :
    (List.range' 1 m).foldl (fun s k => insertRow s (synthRow pts avg k) (row + k)) sheet =
      sheet.take row ++ (List.range' 1 m).map (synthRow pts avg) ++ sheet.drop row := by
  induction m with
  | zero =>
    show sheet = sheet.take row ++ [] ++ sheet.drop row
    rw [List.append_nil, List.take_append_drop]
  | succ m ih =>
    rw [List.range'_concat, List.foldl_append, ih, List.map_append]
    show insertRow
        (sheet.take row ++ (List.range' 1 m).map (synthRow pts avg) ++ sheet.drop row)
        (synthRow pts avg (1 + 1 * m)) (row + (1 + 1 * m)) = _
    unfold insertRow
    have hlen : (sheet.take row ++ (List.range' 1 m).map (synthRow pts avg)).length
        = row + (1 + 1 * m) - 1 := by
      simp [List.length_take, min_eq_left h, List.length_range']
      omega
    rw [List.take_left' hlen, List.drop_left' hlen]
    simp [List.append_assoc, List.singleton_append]

/-- `setDeltaFormula` acts past an untouched prefix. -/
lemma setDeltaFormula_append (l1 l2 : List SheetRow) (j : Nat) :
    setDeltaFormula (l1 ++ l2) (l1.length + j) = l1 ++ setDeltaFormula l2 j := by
  induction l1 with
  | nil => simp [setDeltaFormula]
  | cons r rest ih =>
    rw [show (r :: rest).length + j = (rest.length + j) + 1 by rw [List.length_cons]; omega]
    show r :: setDeltaFormula (rest ++ l2) (rest.length + j) = r :: (rest ++ setDeltaFormula l2 j)
    rw [ih]

/-- The rate-bound invariant of the scan loop: the mock clock always
shows at least 1.2 time units per counted write operation. -/
lemma runLoop_rate_inv : ∀ (fuel : Nat) (st : RunState),
    6/5 * (st.writeOps : ℚ) ≤ st.elapsed →
    6/5 * ((runLoop fuel st).writeOps : ℚ) ≤ (runLoop fuel st).elapsed := by
  intro fuel
  induction fuel with
  | zero => intro st h; exact h
  | succ fuel ih =>
    intro st h
    unfold runLoop
    by_cases he : st.errored
    · rw [if_pos he]; exact h
    · rw [if_neg he]
      cases cleanStep st.sheet st.row with
      | halt => exact h
      | skip => exact ih { st with row := st.row + 1 } h
      | err => exact h
      | gap n ns =>
        refine ih { st with sheet := ns, row := st.row + n, rowsAdded := st.rowsAdded + (n - 1), writeOps := st.writeOps + n, elapsed := st.elapsed + 6/5 * n } ?_
        show 6/5 * ((st.writeOps + n : Nat) : ℚ) ≤ st.elapsed + 6/5 * n
        push_cast
        linarith

/-! ### C9: rate bound -/

/-- C9: each write (insertion or delta rewrite) is followed by a
`time.sleep(1.2)`, so a run performing `N` write operations accumulates
at least `N * 1.2` time units on the mock clock. -/
theorem rate_bound (fuel : Nat) (sheet : List SheetRow) (row : Nat) :
    6/5 * (((runLoop fuel (initState sheet row)).writeOps : Nat) : ℚ) ≤
      (runLoop fuel (initState sheet row)).elapsed :=
  runLoop_rate_inv fuel _ (by norm_num [initState])

/-! ### C10: a fault makes the run report zero rows added -/

/-- C10: when an unexpected exception escapes the scan loop,
`clean_sheet` returns 0 regardless of how many rows were already
inserted, so the final report understates the mutations that remain
applied in the remote store. -/
theorem fault_reports_zero (fuel : Nat) (sheet : List SheetRow) (row : Nat)
    (h : (runLoop fuel (initState sheet row)).errored = true) :
    cleanSheet fuel sheet row = 0 := by
  simp [cleanSheet, h]

/-- Witness for C10: on `S10` the run successfully inserts one row
(the sheet grows from 12 to 13 rows) before the fault, yet
`clean_sheet` reports 0 rows added. -/
theorem fault_reports_zero_witness :
    (runLoop 12 (initState S10 7)).errored = true ∧
    (runLoop 12 (initState S10 7)).rowsAdded = 1 ∧
    (runLoop 12 (initState S10 7)).sheet.length = S10.length + 1 ∧
    cleanSheet 12 S10 7 = 0 :=
  ⟨by decide, by decide, by decide, fault_reports_zero 12 S10 7 (by decide)⟩

/-! ### C7: declining the confirmation -/

/-- Counterexample to C7: when the user declines the time-estimate
confirmation, the program prints `Aborted by user.` and exits 0, but it
does not print the summary line `Cleaning complete. Rows added: 0`. -/
theorem decline_counterexample :
    mainAfterEstimate 301 "n" 0 =
      { exitCode := 0, printed := ["Aborted by user."], ranClean := false } ∧
    "Cleaning complete. Rows added: 0" ∉ (mainAfterEstimate 301 "n" 0).printed := by
  decide

/-- C7 (amended): when the estimate exceeds 300 seconds and the user
declines, the program performs no mutation and exits with status zero,
but it prints `Aborted by user.` instead of the
`Cleaning complete. Rows added: <n>` summary line. -/
theorem decline_no_mutation (est : ℚ) (inp : String) (r : Nat)
    (hest : 300 < est) (hinp : pyLower (pyStrip inp.data) ≠ "y".data) :
    mainAfterEstimate est inp r =
      { exitCode := 0, printed := ["Aborted by user."], ranClean := false } := by
  unfold mainAfterEstimate
  rw [if_pos ⟨hest, hinp⟩]

/-- Witness for the amended C7 at a concrete declined run. -/
theorem decline_no_mutation_witness :
    mainAfterEstimate 400 "N" 3 =
      { exitCode := 0, printed := ["Aborted by user."], ranClean := false } :=
  decline_no_mutation 400 "N" 3 (by norm_num) (by decide)

/-! ### C3: the rounding policy -/

/-- Counterexample to C3: with baseline 1.0h and observed delta 2.5h
(`D3` at cursor 7) the ratio is exactly halfway; the program's Python
`round` yields `n = 2` and the scan decides no gap, whereas the
round-half-away-from-zero policy claimed by the spec would yield
`n = 3`, which satisfies the gap test. -/
theorem rounding_counterexample :
    pyRound ((5 : ℚ)/2) = 2 ∧
    roundHalfAwayFromZero ((5 : ℚ)/2) = 3 ∧
    scanDecision (evalSheet D3) 7 = .skip ∧
    (1 < (3 : ℤ) ∧ |(5 : ℚ)/2 - 3 * 1| < DELTA_TOLERANCE * 1 * 3) := by
  decide

/-- C3 (amended): the missing-reading count is computed with Python's
round-half-to-even policy: at every ratio exactly halfway between two
integers, `pyRound` picks the even neighbour, not the one of larger
absolute value. -/
theorem rounding_half_to_even (k : ℤ) :
    Even (pyRound ((k : ℚ) + 1/2)) ∧
    (pyRound ((k : ℚ) + 1/2) = k ∨ pyRound ((k : ℚ) + 1/2) = k + 1) := by
  have hfloor : ⌊(k : ℚ) + 1/2⌋ = k := by
    rw [add_comm, Int.floor_add_int, show ⌊(1 : ℚ)/2⌋ = 0 by decide, zero_add]
  simp only [pyRound]
  rw [hfloor, show (k : ℚ) + 1/2 - (k : ℤ) = 1/2 by ring]
  rw [if_neg (lt_irrefl _), if_neg (lt_irrefl _)]
  rcases Int.emod_two_eq k with h2 | h2
  · rw [if_pos h2]
    exact ⟨Int.even_iff.mpr h2, Or.inl rfl⟩
  · rw [if_neg (by rw [h2]; decide)]
    refine ⟨?_, Or.inr rfl⟩
    have : ¬ Even k := by rw [Int.even_iff, h2]; decide
    exact (Int.even_add_one).mpr this

/-- A skip outcome advances the cursor by exactly one and performs no
write: the counters, the clock and the sheet are untouched. -/
lemma runLoop_skip_step (sheet : List SheetRow) (row : Nat)
    (h : cleanStep sheet row = .skip) (fuel ra w : Nat) (e : ℚ) :
    runLoop (fuel + 1) { sheet := sheet, row := row, rowsAdded := ra, writeOps := w, elapsed := e, errored := false } = runLoop fuel { sheet := sheet, row := row + 1, rowsAdded := ra, writeOps := w, elapsed := e, errored := false } := by
  simp [runLoop, h]

/-! ### C2: the gap decision -/

/-- C2: with a positive baseline `b` over a complete window and an
observed delta `d`, the scan decides a gap of `n = round(d/b)` exactly
when `n > 1` and `|d - n*b| < 0.2*b*n`; in every other case it decides
no gap, advancing the cursor by exactly one with no write performed. -/
theorem gap_decision_characterization (sheet : List SheetRow) (row : Nat) (b d : ℚ)
    (hb : 0 < b) (hrow : row < (evalSheet sheet).length)
    (hlen : (prevDeltas (evalSheet sheet) row).length = DELTA_AVG_WINDOW)
    (havg : (prevDeltas (evalSheet sheet) row).sum / (DELTA_AVG_WINDOW : ℚ) = b)
    (hd : ((evalSheet sheet).getD row (none, none)).2 = some d) :
    (scanDecision (evalSheet sheet) row = .found b (pyRound (d / b)).toNat ↔
      1 < pyRound (d / b) ∧
        |d - (pyRound (d / b) : ℚ) * b| < DELTA_TOLERANCE * b * (pyRound (d / b) : ℚ)) ∧
    (¬(1 < pyRound (d / b) ∧
        |d - (pyRound (d / b) : ℚ) * b| < DELTA_TOLERANCE * b * (pyRound (d / b) : ℚ)) →
      cleanStep sheet row = .skip ∧
      ∀ fuel ra w e, runLoop (fuel + 1) { sheet := sheet, row := row, rowsAdded := ra, writeOps := w, elapsed := e, errored := false } = runLoop fuel { sheet := sheet, row := row + 1, rowsAdded := ra, writeOps := w, elapsed := e, errored := false }) := by
  have hscan : scanDecision (evalSheet sheet) row =
      match gapDecision b d with
      | some n => Decision.found b n.toNat
      | none => Decision.skip := by
    simp only [scanDecision]
    rw [if_pos hrow, hlen, if_neg (lt_irrefl _), hd, havg]
    show (if b = 0 then Decision.divByZero
      else
        match gapDecision b d with
        | some n => Decision.found b n.toNat
        | none => Decision.skip) =
      match gapDecision b d with
      | some n => Decision.found b n.toNat
      | none => Decision.skip
    rw [if_neg hb.ne']
  by_cases hc : 1 < pyRound (d / b) ∧
      |d - (pyRound (d / b) : ℚ) * b| < DELTA_TOLERANCE * b * (pyRound (d / b) : ℚ)
  · have hgd : gapDecision b d = some (pyRound (d / b)) := by
      unfold gapDecision
      exact if_pos hc
    rw [hgd] at hscan
    exact ⟨⟨fun _ => hc, fun _ => hscan⟩, fun hnc => absurd hc hnc⟩
  · have hgd : gapDecision b d = none := by
      unfold gapDecision
      exact if_neg hc
    rw [hgd] at hscan
    have hstep : cleanStep sheet row = .skip := by
      unfold cleanStep
      rw [hscan]
    refine ⟨⟨fun hfound => ?_, fun h => absurd h hc⟩, fun _ => ⟨hstep, fun fuel ra w e => runLoop_skip_step sheet row hstep fuel ra w e⟩⟩
    rw [hscan] at hfound
    exact absurd hfound (by simp)

/-- Witness for C2 at the spec's gap-rejection example: baseline 1.0h,
observed 1.3h, `n = round(1.3) = 1`, not `> 1`, so the step skips with
no write. -/
theorem gap_decision_characterization_witness :
    cleanStep W2 7 = .skip ∧ pyRound ((13/10 : ℚ) / 1) = 1 :=
  ⟨(((gap_decision_characterization W2 7 1 (13/10) (by norm_num) (by decide) (by decide) (by decide) (by decide)).2) (by decide)).1, by decide⟩

/-! ### C4: the baseline window -/

/-- C4: a baseline is produced only as the arithmetic mean of the
`DELTA_AVG_WINDOW` lookback deltas, and only when the window is
complete; with fewer valid deltas the step performs no insertion and
advances the cursor by exactly one. -/
theorem baseline_window_requirement (sheet : List SheetRow) (row : Nat)
    (hrow : row < (evalSheet sheet).length) :
    (∀ b n, scanDecision (evalSheet sheet) row = .found b n →
        (prevDeltas (evalSheet sheet) row).length = DELTA_AVG_WINDOW ∧
        b = (prevDeltas (evalSheet sheet) row).sum / (DELTA_AVG_WINDOW : ℚ)) ∧
    ((prevDeltas (evalSheet sheet) row).length < DELTA_AVG_WINDOW →
      cleanStep sheet row = .skip ∧
      ∀ fuel ra w e, runLoop (fuel + 1) { sheet := sheet, row := row, rowsAdded := ra, writeOps := w, elapsed := e, errored := false } = runLoop fuel { sheet := sheet, row := row + 1, rowsAdded := ra, writeOps := w, elapsed := e, errored := false }) := by
  constructor
  · intro b n hf
    simp only [scanDecision] at hf
    rw [if_pos hrow] at hf
    by_cases hlen : (prevDeltas (evalSheet sheet) row).length < DELTA_AVG_WINDOW
    · rw [if_pos hlen] at hf
      exact absurd hf (by simp)
    · have hlen5 : (prevDeltas (evalSheet sheet) row).length = DELTA_AVG_WINDOW := by
        have := prevDeltas_length_le (evalSheet sheet) row
        omega
      refine ⟨hlen5, ?_⟩
      rw [if_neg hlen] at hf
      cases hcur : ((evalSheet sheet).getD row (none, none)).2 with
      | none =>
        rw [hcur] at hf
        exact absurd hf (by simp)
      | some c =>
        rw [hcur] at hf
        have hf2 : (if (prevDeltas (evalSheet sheet) row).sum / (DELTA_AVG_WINDOW : ℚ) = 0
            then Decision.divByZero
            else
              match gapDecision ((prevDeltas (evalSheet sheet) row).sum / (DELTA_AVG_WINDOW : ℚ)) c with
              | some m => Decision.found ((prevDeltas (evalSheet sheet) row).sum / (DELTA_AVG_WINDOW : ℚ)) m.toNat
              | none => Decision.skip) = Decision.found b n := hf
        by_cases hz : (prevDeltas (evalSheet sheet) row).sum / (DELTA_AVG_WINDOW : ℚ) = 0
        · rw [if_pos hz] at hf2
          exact absurd hf2 (by simp)
        · rw [if_neg hz] at hf2
          cases hgd : gapDecision ((prevDeltas (evalSheet sheet) row).sum / (DELTA_AVG_WINDOW : ℚ)) c with
          | none =>
            rw [hgd] at hf2
            exact absurd hf2 (by simp)
          | some m =>
            rw [hgd] at hf2
            have := (Decision.found.injEq _ _ _ _).mp hf2
            exact this.1.symm
  · intro hlen
    have hscan : scanDecision (evalSheet sheet) row = .skip := by
      simp only [scanDecision]
      rw [if_pos hrow, if_pos hlen]
    have hstep : cleanStep sheet row = .skip := by
      unfold cleanStep
      rw [hscan]
    exact ⟨hstep, fun fuel ra w e => runLoop_skip_step sheet row hstep fuel ra w e⟩

/-- Witness for C4: at cursor 7 of `W4` only four valid deltas precede,
so the step skips. -/
theorem baseline_window_requirement_witness :
    cleanStep W4 7 = .skip :=
  ((baseline_window_requirement W4 7 (by decide)).2 (by decide)).1

/-! ### C8: parse failures -/

/-- Counterexample to C8: on `S8` a gap is detected at cursor 7 but the
predecessor row's timestamp fails to parse; the resulting exception
aborts the scan (only cursor 7 is ever evaluated although rows 8 and 9
remain), and `clean_sheet` returns 0, instead of the cursor simply
advancing. -/
theorem parse_failure_counterexample :
    cleanStep S8 7 = .err ∧ runVisited 10 S8 7 = [7] ∧ 8 < S8.length ∧
    cleanSheet 10 S8 7 = 0 := by
  decide

/-- C8 (amended): a row whose delta fails to parse is skipped
non-fatally like an incomplete window, but when a gap has been detected
and the predecessor row's timestamp fails to parse (`parse_timestamp`
tries a single pattern), the exception aborts the scan loop: no further
cursor position is evaluated. -/
theorem parse_skip_behavior :
    (∀ (sheet : List SheetRow) (row : Nat), row < (evalSheet sheet).length →
        ((evalSheet sheet).getD row (none, none)).2 = none →
        cleanStep sheet row = .skip) ∧
    (∀ (sheet : List SheetRow) (row : Nat) (avg : ℚ) (n : Nat),
        scanDecision (evalSheet sheet) row = .found avg n →
        ((evalSheet sheet).getD (row - 1) (none, none)).1 = none →
        cleanStep sheet row = .err ∧
        ∀ fuel, runVisited (fuel + 1) sheet row = [row]) := by
  constructor
  · intro sheet row hrow hnone
    have hscan : scanDecision (evalSheet sheet) row = .skip := by
      simp only [scanDecision]
      rw [if_pos hrow]
      by_cases hlen : (prevDeltas (evalSheet sheet) row).length < DELTA_AVG_WINDOW
      · rw [if_pos hlen]
      · rw [if_neg hlen, hnone]
    unfold cleanStep
    rw [hscan]
  · intro sheet row avg n hfound hts
    have hstep : cleanStep sheet row = .err := by
      unfold cleanStep
      rw [hfound, hts]
    refine ⟨hstep, fun fuel => ?_⟩
    unfold runVisited
    rw [hstep]

/-- Witness for the amended C8: a skipped unparseable delta on `CE`
(cursor 0) and the scan-aborting parse failure on `S8` (cursor 7). -/
theorem parse_skip_behavior_witness :
    cleanStep CE 0 = .skip ∧ (cleanStep S8 7 = .err ∧ runVisited 4 S8 7 = [7]) :=
  ⟨parse_skip_behavior.1 CE 0 (by decide) (by decide),
   ⟨(parse_skip_behavior.2 S8 7 1 2 (by decide) (by decide)).1,
    (parse_skip_behavior.2 S8 7 1 2 (by decide) (by decide)).2 3⟩⟩

/-! ### C6: cursor resumption -/

/-- C6: after the writes for a gap of size `n` at cursor `p`, the run
continues on the refreshed sheet at cursor `p + n`, and the remainder
of the scan evaluates only positions at or beyond `p + n`: positions
below `p`, and the freshly inserted positions `p .. p+n-2`, are never
re-evaluated. -/
theorem resume_cursor (sheet : List SheetRow) (p n : Nat) (ns : List SheetRow) (fuel : Nat)
    (h : cleanStep sheet p = .gap n ns) :
    runVisited (fuel + 1) sheet p = p :: runVisited fuel ns (p + n) ∧
    minCursorBound (runVisited fuel ns (p + n)) (p + n) ∧
    ∀ ra w e, runLoop (fuel + 1) { sheet := sheet, row := p, rowsAdded := ra, writeOps := w, elapsed := e, errored := false } = runLoop fuel { sheet := ns, row := p + n, rowsAdded := ra + (n - 1), writeOps := w + n, elapsed := e + 6/5 * n, errored := false } := by
  refine ⟨?_, runVisited_ge fuel ns (p + n), fun ra w e => ?_⟩
  · simp only [runVisited, h]
  · simp [runLoop, h]

/-- Witness for C6 at the gap of 2 detected at cursor 7 of `CE`. -/
theorem resume_cursor_witness :
    runVisited 6 CE 7 = 7 :: runVisited 5 NSCE 9 ∧
    minCursorBound (runVisited 5 NSCE 9) 9 := by
  have h := resume_cursor CE 7 2 NSCE 5 (by decide)
  exact ⟨h.1, h.2.1⟩

/-- The insertion loop in closed form: the `nMissing - 1` synthesized
rows form a block immediately above the original anomalous row. -/
lemma insertLoop_eq (sheet : List SheetRow) (row : Nat) (avg pts : ℚ) (nMissing : Nat)
    (h : row ≤ sheet.length) :
    insertLoop sheet row avg pts nMissing =
      sheet.take row ++ (List.range' 1 (nMissing - 1)).map (synthRow pts avg) ++
        sheet.drop row := by
  unfold insertLoop
  exact insertLoop_closed sheet row avg pts (nMissing - 1) h

/-! ### C5: the interpolation writes -/

/-- C5: on a gap of `n` at cursor `row` with parsed predecessor
timestamp `pts`, the engine inserts exactly `n - 1` synthesized rows
immediately above the original anomalous row, the `k`-th carrying
timestamp `pts + k * baseline` and the `cleaned` marker; the original
row keeps its data, is shifted to position `row + n - 1`, and only its
delta cell is rewritten to the formula referencing its new immediate
predecessor; all later rows are untouched. -/
theorem interpolation_writes (sheet : List SheetRow) (row : Nat) (avg pts : ℚ) (n : Nat)
    (orig : SheetRow) (rest : List SheetRow)
    (hdec : scanDecision (evalSheet sheet) row = .found avg n)
    (hts : ((evalSheet sheet).getD (row - 1) (none, none)).1 = some pts)
    (hn : 1 ≤ n)
    (hdrop : sheet.drop row = orig :: rest) :
    cleanStep sheet row =
      .gap n (sheet.take row ++
        (List.range' 1 (n - 1)).map (synthRow pts avg) ++
        ({ orig with delta := DeltaCell.formula } :: rest)) ∧
    ((List.range' 1 (n - 1)).map (synthRow pts avg)).length = n - 1 ∧
    ∀ k, synthRow pts avg k =
      { ts := TsCell.dateFormula (pts + avg * k), delta := DeltaCell.formula,
        marker := CLEANED_MARK } := by
  have hrowle : row ≤ sheet.length := by
    by_contra hcon
    push_neg at hcon
    have := List.drop_eq_nil_of_le (le_of_lt hcon)
    rw [hdrop] at this
    simp at this
  have hstep : cleanStep sheet row = .gap n (applyGapWrites sheet row avg pts n) := by
    unfold cleanStep
    rw [hdec, hts]
  have hl1 : (sheet.take row ++ (List.range' 1 (n - 1)).map (synthRow pts avg)).length = row + (n - 1) := by
    simp [List.length_take, min_eq_left hrowle, List.length_range']
  have hclosed : applyGapWrites sheet row avg pts n =
      sheet.take row ++ (List.range' 1 (n - 1)).map (synthRow pts avg) ++
        ({ orig with delta := DeltaCell.formula } :: rest) := by
    unfold applyGapWrites updateCell
    rw [insertLoop_eq sheet row avg pts n hrowle, hdrop]
    rw [show row + n - 1 = (sheet.take row ++ (List.range' 1 (n - 1)).map (synthRow pts avg)).length + 0 by rw [hl1]; omega]
    rw [setDeltaFormula_append]
    rfl
  refine ⟨?_, ?_, fun k => rfl⟩
  · rw [hstep, hclosed]
  · rw [List.length_map, List.length_range']

/-- Witness for C5 at the gap of 2 detected at cursor 7 of `CE`: one
synthesized row with timestamp `10 + 1`, the original row shifted one
place down with its delta rewritten, the tail untouched. -/
theorem interpolation_writes_witness :
    cleanStep CE 7 =
      .gap 2 (CE.take 7 ++
        (List.range' 1 (2 - 1)).map (synthRow 10 1) ++
        ({ tRow 12 (some 2) with delta := DeltaCell.formula } :: [tRow 13 (some 1), tRow (77/5) (some (12/5))])) ∧
    synthRow 10 1 1 =
      { ts := TsCell.dateFormula 11, delta := DeltaCell.formula, marker := CLEANED_MARK } :=
  ⟨(interpolation_writes CE 7 1 10 2 (tRow 12 (some 2)) [tRow 13 (some 1), tRow (77/5) (some (12/5))] (by decide) (by decide) (by decide) (by decide)).1, by decide⟩

/-- While the estimator, over the same snapshot, predicts no write at
all, the real run takes exactly the same skip decisions: it performs no
write, never errors, leaves the sheet untouched, and halts at the same
cursor as the estimator. -/
lemma est_zero_run_aux (sheet : List SheetRow) : ∀ (fuel row : Nat),
    (estimateLoop (evalSheet sheet) fuel { row := row, rowsToInsert := 0, updateOps := 0, errored := false }).updateOps = 0 →
    (estimateLoop (evalSheet sheet) fuel { row := row, rowsToInsert := 0, updateOps := 0, errored := false }).errored = false →
    runLoop fuel { sheet := sheet, row := row, rowsAdded := 0, writeOps := 0, elapsed := 0, errored := false } = { sheet := sheet, row := (estimateLoop (evalSheet sheet) fuel { row := row, rowsToInsert := 0, updateOps := 0, errored := false }).row, rowsAdded := 0, writeOps := 0, elapsed := 0, errored := false } ∧
    (estimateLoop (evalSheet sheet) fuel { row := row, rowsToInsert := 0, updateOps := 0, errored := false }).rowsToInsert = 0 := by
  intro fuel
  induction fuel with
  | zero =>
    intro row h0 he
    exact ⟨rfl, rfl⟩
  | succ fuel ih =>
    intro row h0 he
    cases hscan : scanDecision (evalSheet sheet) row with
    | offEnd =>
      have hest : estimateLoop (evalSheet sheet) (fuel + 1) { row := row, rowsToInsert := 0, updateOps := 0, errored := false } = { row := row, rowsToInsert := 0, updateOps := 0, errored := false } := by
        simp [estimateLoop, hscan]
      have hcs : cleanStep sheet row = .halt := by
        unfold cleanStep
        rw [hscan]
      have hrun : runLoop (fuel + 1) { sheet := sheet, row := row, rowsAdded := 0, writeOps := 0, elapsed := 0, errored := false } = { sheet := sheet, row := row, rowsAdded := 0, writeOps := 0, elapsed := 0, errored := false } := by
        simp [runLoop, hcs]
      rw [hest, hrun]
      exact ⟨rfl, rfl⟩
    | skip =>
      have hest : estimateLoop (evalSheet sheet) (fuel + 1) { row := row, rowsToInsert := 0, updateOps := 0, errored := false } = estimateLoop (evalSheet sheet) fuel { row := row + 1, rowsToInsert := 0, updateOps := 0, errored := false } := by
        simp [estimateLoop, hscan]
      have hcs : cleanStep sheet row = .skip := by
        unfold cleanStep
        rw [hscan]
      rw [hest] at h0 he ⊢
      rw [runLoop_skip_step sheet row hcs fuel 0 0 0]
      exact ih (row + 1) h0 he
    | divByZero =>
      have hest : estimateLoop (evalSheet sheet) (fuel + 1) { row := row, rowsToInsert := 0, updateOps := 0, errored := false } = { row := row, rowsToInsert := 0, updateOps := 0, errored := true } := by
        simp [estimateLoop, hscan]
      rw [hest] at he
      simp at he
    | found avg n =>
      have hest : estimateLoop (evalSheet sheet) (fuel + 1) { row := row, rowsToInsert := 0, updateOps := 0, errored := false } = estimateLoop (evalSheet sheet) fuel { row := row + n, rowsToInsert := n - 1, updateOps := 1, errored := false } := by
        simp [estimateLoop, hscan]
      rw [hest] at h0
      have hmono := estimateLoop_updateOps_mono (evalSheet sheet) fuel { row := row + n, rowsToInsert := n - 1, updateOps := 1, errored := false }
      rw [h0] at hmono
      exact absurd hmono (by simp)

/-! ### C1: plan/execute consistency -/

/-- C1 (amended): when the Planner's dry run over the snapshot predicts
zero inserts and zero delta rewrites, the real run started at the same
cursor performs zero inserts and zero rewrites, leaves the sheet
unchanged, and its predicted counts match the performed ones; with
gaps present the counts can differ (see the counterexample), because
the real run re-fetches the snapshot after each repair. -/
theorem plan_execute_zero_consistency (fuel : Nat) (sheet : List SheetRow) (row : Nat)
    (h0 : (estimateRowsToInsert fuel (evalSheet sheet) row).updateOps = 0)
    (he : (estimateRowsToInsert fuel (evalSheet sheet) row).errored = false) :
    runLoop fuel { sheet := sheet, row := row, rowsAdded := 0, writeOps := 0, elapsed := 0, errored := false } = { sheet := sheet, row := (estimateRowsToInsert fuel (evalSheet sheet) row).row, rowsAdded := 0, writeOps := 0, elapsed := 0, errored := false } ∧
    (estimateRowsToInsert fuel (evalSheet sheet) row).rowsToInsert = 0 :=
  est_zero_run_aux sheet fuel row h0 he

/-- Witness for the amended C1 on the gapless snapshot `NG`: the
estimator predicts zero writes and the run performs zero writes. -/
theorem plan_execute_zero_consistency_witness :
    runLoop 10 { sheet := NG, row := 7, rowsAdded := 0, writeOps := 0, elapsed := 0, errored := false } = { sheet := NG, row := (estimateRowsToInsert 10 (evalSheet NG) 7).row, rowsAdded := 0, writeOps := 0, elapsed := 0, errored := false } ∧
    (estimateRowsToInsert 10 (evalSheet NG) 7).rowsToInsert = 0 :=
  plan_execute_zero_consistency 10 NG 7 (by decide) (by decide)

/-- Counterexample to C1: on `CE`, started at cursor 7, the dry run
predicts 2 inserted rows and 2 delta rewrites, but the real run against
the same snapshot performs only 1 insertion and 2 write operations
(1 insert + 1 rewrite) before halting normally: the prediction does not
match the performed counts, because after repairing the first gap the
re-fetched snapshot puts the synthesized deltas into the next baseline
window. -/
theorem plan_execute_counterexample :
    (estimateRowsToInsert 20 (evalSheet CE) 7).rowsToInsert = 2 ∧
    (estimateRowsToInsert 20 (evalSheet CE) 7).updateOps = 2 ∧
    (estimateRowsToInsert 20 (evalSheet CE) 7).errored = false ∧
    (runLoop 20 { sheet := CE, row := 7, rowsAdded := 0, writeOps := 0, elapsed := 0, errored := false }).rowsAdded = 1 ∧
    (runLoop 20 { sheet := CE, row := 7, rowsAdded := 0, writeOps := 0, elapsed := 0, errored := false }).writeOps = 2 ∧
    (runLoop 20 { sheet := CE, row := 7, rowsAdded := 0, writeOps := 0, elapsed := 0, errored := false }).errored = false ∧
    (runLoop 20 { sheet := CE, row := 7, rowsAdded := 0, writeOps := 0, elapsed := 0, errored := false }).row = 11 ∧
    (runLoop 20 { sheet := CE, row := 7, rowsAdded := 0, writeOps := 0, elapsed := 0, errored := false }).sheet.length = 11 ∧
    (estimateRowsToInsert 20 (evalSheet CE) 7).rowsToInsert ≠
      (runLoop 20 { sheet := CE, row := 7, rowsAdded := 0, writeOps := 0, elapsed := 0, errored := false }).rowsAdded := by
  decide
